import Mathlib

/-!
Shallow embedding of the acertmgr ACME engine (`acertmgr_ssl.py`) and the
relevant fragment of its configuration resolution (`acertmgr/configuration.py`).

Network and library effects are made explicit:
  * every HTTP exchange is answered by an oracle supplied as an argument
    (per-call `PostOutcome` for signed POSTs, per-domain `DomainEnv` records
    for the challenge solver);
  * library primitives (base64, JSON serialisation, SHA-256, RSA signing,
    DER encoding) are fields of a `Prims` bundle, since their internals are
    outside the repository;
  * filesystem writes/removes, HTTP fetches and sleeps are recorded in an
    explicit event trace;
  * Python exceptions become the `PyErr` sum type; each constructor
    corresponds to one `raise` site (or crash site) of the source.
The challenge-status polling loop of `get_crt_from_csr` is unbounded in the
source; it is modelled over the finite list of CA responses the world
provides, with result `none` meaning the loop is still polling past the
modelled window.
-/

namespace Acertmgr

/-- JSON values, as produced by `json.loads` in the source.  Objects are
association lists in insertion order (the order `json.dumps` serialises). -/
inductive Json where
  | null : Json
  | str : String → Json
  | num : Int → Json
  | bool : Bool → Json
  | arr : List Json → Json
  | obj : List (String × Json) → Json

/-- Lookup of a key in a JSON object's field list (Python `d[k]`,
first binding wins). -/
def lookupField : List (String × Json) → String → Option Json
  | [], _ => none
  | (k, v) :: rest, key => if k = key then some v else lookupField rest key

/-- `j[key]` on a JSON value: defined lookup only for objects. -/
def jlookup : Json → String → Option Json
  | .obj fs, key => lookupField fs key
  | _, _ => none

/-- Python `==` between a JSON value and a string literal: true only when the
value is that string (a non-string JSON value compares unequal). -/
def jeqStr : Json → String → Bool
  | .str t, s => t = s
  | _, _ => false

/-- Lookup of a key expected to hold a string (`challenge['token']` etc.). -/
def jlookupStr (j : Json) (key : String) : Option String :=
  match jlookup j key with
  | some (.str s) => some s
  | _ => none

/-- Python dict assignment `d[key] = v` on an insertion-ordered field list:
replace in place when the key exists, append otherwise. -/
def setField : List (String × Json) → String → Json → List (String × Json)
  | [], key, v => [(key, v)]
  | (k0, v0) :: rest, key, v =>
      if k0 = key then (key, v) :: rest else (k0, v0) :: setField rest key v

/-- Library primitives used by `acertmgr_ssl.py`, abstracted: their internals
(OpenSSL, hashlib, base64, json serialisation) are outside the repository. -/
structure Prims where
  Key : Type
  Csr : Type
  Cert : Type
  /-- `base64.urlsafe_b64encode(b).decode('utf8')` (padding still present). -/
  b64raw : List Nat → String
  /-- `json.dumps(j)` with default separators. -/
  dumps : Json → String
  /-- `json.dumps(j, sort_keys=True, separators=(',', ':'))`. -/
  dumpsSorted : Json → String
  /-- `s.encode('utf8')`. -/
  encodeUtf8 : String → List Nat
  /-- `hashlib.sha256(b).digest()`. -/
  sha256 : List Nat → List Nat
  /-- public-exponent bytes extracted from the key dump (lines 70-79). -/
  pubExpBytes : Key → List Nat
  /-- public-modulus bytes extracted from the key dump (lines 70-81). -/
  pubModBytes : Key → List Nat
  /-- `crypto.sign(key, data, digest)`. -/
  signRSA : Key → String → String → List Nat
  /-- `crypto.dump_certificate_request(crypto.FILETYPE_ASN1, csr)`. -/
  dumpCsrDer : Csr → List Nat
  /-- `crypto.load_certificate(crypto.FILETYPE_ASN1, body)`. -/
  loadCertDer : Json → Cert

/-- `base64_enc` (line 108): urlsafe base64 with every `=` removed. -/
def base64_enc (P : Prims) (b : List Nat) : String :=
  String.mk ((P.b64raw b).data.filter (fun c => c ≠ '='))

/-- The character class `[A-Za-z0-9_-]` of the token-sanitising regex
(line 161). -/
def safeChar (c : Char) : Bool :=
  ('A' ≤ c && c ≤ 'Z') || ('a' ≤ c && c ≤ 'z') || ('0' ≤ c && c ≤ '9') ||
    c = '_' || c = '-'

/-- `re.sub(r"[^A-Za-z0-9_\-]", "_", token)` (line 161): every character
outside the safe class becomes an underscore. -/
def sanitize (s : String) : String :=
  String.mk (s.data.map (fun c => if safeChar c then c else '_'))

/-- ASCII whitespace stripped by Python `str.strip()`. -/
def pyWs (c : Char) : Bool :=
  c = ' ' || c = '\t' || c = '\n' || c = '\r' ||
    c = Char.ofNat 11 || c = Char.ofNat 12

/-- Python `s.strip()` restricted to ASCII whitespace (line 171). -/
def pyStrip (s : String) : String :=
  String.mk (((s.data.dropWhile pyWs).reverse.dropWhile pyWs).reverse)

/-- The JWK object built by `acme_header` (lines 78-82): field order is the
insertion order of the source literal. -/
def jwkObj (P : Prims) (key : P.Key) : Json :=
  Json.obj [("e", .str (base64_enc P (P.pubExpBytes key))),
            ("kty", .str "RSA"),
            ("n", .str (base64_enc P (P.pubModBytes key)))]

/-- `acme_header` (lines 69-84): `{alg: RS256, jwk: {e, kty, n}}`. -/
def acme_header (P : Prims) (key : P.Key) : Json :=
  Json.obj [("alg", .str "RS256"), ("jwk", jwkObj P key)]

/-- The account thumbprint of `get_crt_from_csr` (lines 144-145):
base64url(sha256(sorted-compact-json of the JWK)). -/
def account_thumbprint (P : Prims) (key : P.Key) : String :=
  base64_enc P (P.sha256 (P.encodeUtf8 (P.dumpsSorted (jwkObj P key))))

/-- Outcome of one `urlopen(url, data)` POST, as seen by `send_signed`'s
`try`/`except` (lines 128-132): a success response, an `IOError` that carries
a status and a readable body (`HTTPError`), or an `IOError` with neither
(pure transport failure; only its `str(e)` text is available). -/
inductive PostOutcome where
  | ok (code : Nat) (body : Json)
  | httpError (code : Nat) (body : Json)
  | noStatus (msg : String)

/-- Python exceptions of the embedded code, one constructor per raise/crash
site of `acertmgr_ssl.py`. -/
inductive PyErr where
  /-- `IOError` escaping from the nonce fetch `urlopen(CA + "/directory")`
  (line 121), which is outside the `try` of `send_signed`. -/
  | nonceFetchIOError (msg : String)
  /-- `ValueError("Error registering: ...")` (line 103). -/
  | errorRegistering (code : Option Nat) (body : Json)
  /-- `ValueError("Error requesting challenges: ...")` (line 157). -/
  | errorRequestingChallenges (code : Option Nat) (body : Json)
  /-- `IndexError` from `[...][0]` on an empty http-01 filter (line 160). -/
  | indexError
  /-- `KeyError` (or `TypeError`) from a missing/ill-typed JSON field. -/
  | keyError
  /-- `ValueError("Wrote file to {path}, but couldn't download {url}")`
  (line 175). -/
  | selfCheckFailed (path : String) (url : String)
  /-- `ValueError("Error triggering challenge: ...")` (line 184). -/
  | errorTriggeringChallenge (code : Option Nat) (body : Json)
  /-- `ValueError("Error checking challenge: ...")` (line 192). -/
  | errorCheckingChallenge (code : Nat) (body : Json)
  /-- `ValueError("{domain} challenge did not pass: {status}")` (line 201). -/
  | challengeDidNotPass (domain : String) (status : Json)
  /-- `ValueError("Error signing certificate: ...")` (line 212). -/
  | errorSigningCertificate (code : Option Nat) (body : Json)

/-- The signed request body assembled by `send_signed` (lines 124-127);
`data` is the JSON serialisation of these four fields. -/
structure SignedEnvelope where
  header : Json
  protected64 : String
  payload64 : String
  signature : String

/-- `protected = copy.deepcopy(header); protected["nonce"] = ...`
(lines 120-121).  All call sites pass an object. -/
def withNonce : Json → String → Json
  | .obj fs, nonce => .obj (setField fs "nonce" (.str nonce))
  | j, _ => j

/-- Envelope construction of `send_signed` (lines 119-127): base64url-encode
payload and nonce-extended protected header, sign `protected64.payload64`
with SHA-256/RSA. -/
def mkEnvelope (P : Prims) (key : P.Key) (header payload : Json)
    (nonce : String) : SignedEnvelope :=
  let payload64 := base64_enc P (P.encodeUtf8 (P.dumps payload))
  let protected64 :=
    base64_enc P (P.encodeUtf8 (P.dumps (withNonce header nonce)))
  let out := P.signRSA key (protected64 ++ "." ++ payload64) "sha256"
  ⟨header, protected64, payload64, base64_enc P out⟩

/-- `send_signed` (lines 118-132).  `nonceRes` is the outcome of the nonce
fetch `urlopen(CA + "/directory")` (an `IOError` there escapes, it is outside
the `try`); `post` answers the signed POST.  An `IOError` from the POST is
caught: with a status attribute it yields `(code, body)`, without one it
yields `(None, str(e))`. -/
def send_signed (P : Prims) (key : P.Key) (CA url : String)
    (header payload : Json) (nonceRes : Except String String)
    (post : SignedEnvelope → PostOutcome) :
    Except PyErr (Option Nat × Json) :=
  match nonceRes with
  | .error msg => .error (.nonceFetchIOError msg)
  | .ok nonce =>
    match post (mkEnvelope P key header payload nonce) with
    | .ok code body => .ok (some code, body)
    | .httpError code body => .ok (some code, body)
    | .noStatus msg => .ok (none, .str msg)

/-- The agreement URL hard-coded into the `new-reg` payload (line 94). -/
def leAgreement : String :=
  "https://letsencrypt.org/documents/LE-SA-v1.0.1-July-27-2015.pdf"

/-- The `new-reg` payload of `register_account` (lines 92-95). -/
def newRegPayload : Json :=
  .obj [("resource", .str "new-reg"), ("agreement", .str leAgreement)]

/-- `register_account` (lines 90-103): 201 → newly registered (`true`),
409 → already registered (`false`), anything else →
`ValueError("Error registering: ...")`. -/
def register_account (P : Prims) (key : P.Key) (CA : String)
    (nonceRes : Except String String) (post : SignedEnvelope → PostOutcome) :
    Except PyErr Bool :=
  let header := acme_header P key
  match send_signed P key CA (CA ++ "/acme/new-reg") header newRegPayload
      nonceRes post with
  | .error e => .error e
  | .ok (code, result) =>
    if code = some 201 then .ok true
    else if code = some 409 then .ok false
    else .error (.errorRegistering code result)

/-- Observable actions of `get_crt_from_csr`, in the order they happen.
`newAuthzRequest d` marks the start of the per-domain solver run (the
`new-authz` `send_signed` call for `d`), `newCertRequest` the final
`new-cert` call. -/
inductive Event where
  | newAuthzRequest (domain : String)
  | writeFile (path : String) (content : String)
  | selfCheckFetch (url : String)
  | removeFile (path : String)
  | triggerRequest (uri : String) (keyAuthorization : String)
  | pollRequest (uri : String)
  | sleep (seconds : Nat)
  | newCertRequest
  deriving DecidableEq

/-- One answer of `urlopen(challenge['uri'])` in the polling loop
(lines 188-193): a parsed status payload, or an `IOError` carrying a status
code and a JSON body. -/
inductive PollResp where
  | ok (payload : Json)
  | ioError (code : Nat) (body : Json)

/-- The world's answers to everything one domain's validation may ask:
nonce fetches and POST answers for the `new-authz` and trigger requests,
the self-check fetch (`none` = `IOError`, `some body` = fetched body), and
the finite window of polling answers. -/
structure DomainEnv (P : Prims) where
  authzNonce : Except String String
  authzResp : SignedEnvelope → PostOutcome
  selfCheck : Option String
  triggerNonce : Except String String
  triggerResp : SignedEnvelope → PostOutcome
  polls : List PollResp

/-- The `new-authz` payload (lines 153-155). -/
def authzPayload (domain : String) : Json :=
  .obj [("resource", .str "new-authz"),
        ("identifier", .obj [("type", .str "dns"), ("value", .str domain)])]

/-- The trigger payload (lines 180-182). -/
def triggerPayload (keyauthorization : String) : Json :=
  .obj [("resource", .str "challenge"),
        ("keyAuthorization", .str keyauthorization)]

/-- The list comprehension
`[c for c in ...['challenges'] if c['type'] == "http-01"]` (line 160):
a missing `type` key anywhere crashes with `KeyError`. -/
def filterHttp01 : List Json → Except PyErr (List Json)
  | [] => .ok []
  | c :: rest =>
    match jlookup c "type" with
    | none => .error .keyError
    | some t =>
      match filterHttp01 rest with
      | .error e => .error e
      | .ok r => .ok (if jeqStr t "http-01" then c :: r else r)

/-- The `while True` polling loop (lines 187-202), run over the finite list
of CA answers the world provides.  Result `none` means every provided answer
was consumed with status still `pending`: the real loop would continue
polling (it has no iteration cap). -/
def pollLoop (domain uri path : String) :
    List PollResp → Option (Except PyErr Unit) × List Event
  | [] => (none, [])
  | .ioError code body :: _ =>
    (some (.error (.errorCheckingChallenge code body)), [.pollRequest uri])
  | .ok payload :: rest =>
    match jlookup payload "status" with
    | none => (some (.error .keyError), [.pollRequest uri])
    | some st =>
      if jeqStr st "pending" then
        let r := pollLoop domain uri path rest
        (r.1, .pollRequest uri :: .sleep 2 :: r.2)
      else if jeqStr st "valid" then
        (some (.ok ()), [.pollRequest uri, .removeFile path])
      else
        (some (.error (.challengeDidNotPass domain payload)),
         [.pollRequest uri])

/-- One iteration of the `for domain in domains` loop of `get_crt_from_csr`
(lines 148-202): request a challenge, publish the proof file, self-check it,
trigger, poll.  Returns the outcome (`none` = still polling) and the trace. -/
def verifyDomain (P : Prims) (key : P.Key) (CA acme_dir : String)
    (header : Json) (thumbprint : String) (domain : String)
    (env : DomainEnv P) : Option (Except PyErr Unit) × List Event :=
  match send_signed P key CA (CA ++ "/acme/new-authz") header
      (authzPayload domain) env.authzNonce env.authzResp with
  | .error e => (some (.error e), [.newAuthzRequest domain])
  | .ok (code, result) =>
    if code = some 201 then
      match jlookup result "challenges" with
      | some (.arr cs) =>
        match filterHttp01 cs with
        | .error e => (some (.error e), [.newAuthzRequest domain])
        | .ok [] => (some (.error .indexError), [.newAuthzRequest domain])
        | .ok (challenge :: _) =>
          match jlookupStr challenge "token" with
          | none => (some (.error .keyError), [.newAuthzRequest domain])
          | some rawToken =>
            let token := sanitize rawToken
            let keyauthorization := token ++ "." ++ thumbprint
            let wellknown_path := acme_dir ++ "/" ++ token
            let wellknown_url :=
              "http://" ++ domain ++ "/.well-known/acme-challenge/" ++ token
            let pre : List Event :=
              [.newAuthzRequest domain,
               .writeFile wellknown_path keyauthorization,
               .selfCheckFetch wellknown_url]
            let selfCheckOk :=
              match env.selfCheck with
              | none => false
              | some body => pyStrip body = keyauthorization
            if selfCheckOk then
              match jlookupStr challenge "uri" with
              | none => (some (.error .keyError), pre)
              | some uri =>
                match send_signed P key CA uri header
                    (triggerPayload keyauthorization) env.triggerNonce
                    env.triggerResp with
                | .error e =>
                  (some (.error e), pre ++ [.triggerRequest uri keyauthorization])
                | .ok (tcode, tresult) =>
                  if tcode = some 202 then
                    let r := pollLoop domain uri wellknown_path env.polls
                    (r.1, pre ++ .triggerRequest uri keyauthorization :: r.2)
                  else
                    (some (.error (.errorTriggeringChallenge tcode tresult)),
                     pre ++ [.triggerRequest uri keyauthorization])
            else
              (some (.error (.selfCheckFailed wellknown_path wellknown_url)),
               pre ++ [.removeFile wellknown_path])
      | _ => (some (.error .keyError), [.newAuthzRequest domain])
    else
      (some (.error (.errorRequestingChallenges code result)),
       [.newAuthzRequest domain])

/-- The `for domain in domains` loop (line 148): domains validated strictly
sequentially, in input order; the first failing (or still-polling) domain
stops the loop.  `i` is the position of the head of `domains` in the original
list, used to index the world's per-domain answers. -/
def verifyDomains (P : Prims) (key : P.Key) (CA acme_dir : String)
    (header : Json) (thumbprint : String) (env : Nat → DomainEnv P) :
    List String → Nat → Option (Except PyErr Unit) × List Event
  | [], _ => (some (.ok ()), [])
  | d :: rest, i =>
    let r := verifyDomain P key CA acme_dir header thumbprint d (env i)
    match r.1 with
    | some (.ok ()) =>
      let r2 := verifyDomains P key CA acme_dir header thumbprint env rest
        (i + 1)
      (r2.1, r.2 ++ r2.2)
    | out => (out, r.2)

/-- The `new-cert` payload (lines 207-210). -/
def newCertPayload (P : Prims) (csr_der : List Nat) : Json :=
  .obj [("resource", .str "new-cert"), ("csr", .str (base64_enc P csr_der))]

/-- `get_crt_from_csr` (lines 142-217): compute the thumbprint, validate
every domain in order, then submit the CSR and parse the certificate.
Result `none` means a polling loop is still running past the modelled
window of CA answers. -/
def get_crt_from_csr (P : Prims) (key : P.Key) (csr : P.Csr)
    (domains : List String) (acme_dir CA : String) (env : Nat → DomainEnv P)
    (certNonce : Except String String)
    (certResp : SignedEnvelope → PostOutcome) :
    Option (Except PyErr P.Cert) × List Event :=
  let header := acme_header P key
  match jlookup header "jwk" with
  | none => (some (.error .keyError), [])
  | some jwk =>
    let thumbprint := base64_enc P (P.sha256 (P.encodeUtf8 (P.dumpsSorted jwk)))
    let r := verifyDomains P key CA acme_dir header thumbprint env domains 0
    match r.1 with
    | none => (none, r.2)
    | some (.error e) => (some (.error e), r.2)
    | some (.ok ()) =>
      let csr_der := P.dumpCsrDer csr
      match send_signed P key CA (CA ++ "/acme/new-cert") header
          (newCertPayload P csr_der) certNonce certResp with
      | .error e => (some (.error e), r.2 ++ [.newCertRequest])
      | .ok (code, result) =>
        if code = some 201 then
          (some (.ok (P.loadCertDer result)), r.2 ++ [.newCertRequest])
        else
          (some (.error (.errorSigningCertificate code result)),
           r.2 ++ [.newCertRequest])

/-- The domain of a `new-authz` event, if any. -/
def authzOf : Event → Option String
  | .newAuthzRequest d => some d
  | _ => none

/-- The domains named by the `new-authz` events of a trace, in order. -/
def authzDomains (tr : List Event) : List String :=
  tr.filterMap authzOf

/-! ## Configuration fragment (`acertmgr/configuration.py`) -/

/-- `DEFAULT_AUTHORITY_AGREEMENT` (configuration.py line 27). -/
def DEFAULT_AUTHORITY_AGREEMENT : String :=
  "https://letsencrypt.org/documents/LE-SA-v1.2-November-15-2017.pdf"

/-- `update_config_value` (configuration.py lines 48-53): the first local
entry containing `name` wins, else the global value for `name`, else the
default.  Python's heterogeneous `name in x` test is abstracted into the
`contains` predicate. -/
def update_config_value {V : Type} (contains : String → V → Bool)
    (name : String) (localconfig : List V) (globalconfig : String → Option V)
    (default : V) : V :=
  match localconfig.filter (contains name) with
  | v :: _ => v
  | [] => (globalconfig name).getD default

/-- The `authority_agreement` resolution step of `parse_config_entry`
(configuration.py line 75). -/
def resolvedAuthorityAgreement (contains : String → String → Bool)
    (localconfig : List String) (globalconfig : String → Option String) :
    String :=
  update_config_value contains "authority_agreement" localconfig globalconfig
    DEFAULT_AUTHORITY_AGREEMENT

/-! ## A concrete primitives bundle, for witnesses and counterexamples -/

/-- Trivial instantiations of the library primitives: enough to evaluate the
embedded control flow on concrete inputs. -/
def testPrims : Prims where
  Key := Unit
  Csr := Unit
  Cert := Json
  b64raw := fun _ => "B64="
  dumps := fun _ => "{}"
  dumpsSorted := fun _ => "{}"
  encodeUtf8 := fun _ => []
  sha256 := fun b => b
  pubExpBytes := fun _ => []
  pubModBytes := fun _ => []
  signRSA := fun _ _ _ => []
  dumpCsrDer := fun _ => []
  loadCertDer := fun j => j

/-- An HTTP response carrying status `code` and body `body`, whether urlopen
returned it normally or raised it as an `HTTPError`. -/
def respondsWith (post : SignedEnvelope → PostOutcome) (env : SignedEnvelope)
    (code : Nat) (body : Json) : Prop :=
  post env = .ok code body ∨ post env = .httpError code body

/-- A world whose `new-authz` answer offers only a `dns-01` challenge. -/
def c4Env : DomainEnv testPrims where
  authzNonce := .ok "N"
  authzResp := fun _ => .ok 201 (Json.obj [("challenges", .arr
    [Json.obj [("type", .str "dns-01"), ("token", .str "tok")]])])
  selfCheck := none
  triggerNonce := .ok "N"
  triggerResp := fun _ => .ok 202 .null
  polls := []

/-- A world whose self-check fetch returns the key authorization with a
trailing newline — not byte-identical to the expected string — and whose CA
then validates the challenge. -/
def c5CxEnv : DomainEnv testPrims where
  authzNonce := .ok "N"
  authzResp := fun _ => .ok 201 (Json.obj [("challenges", .arr
    [Json.obj [("type", .str "http-01"), ("token", .str "tok"),
               ("uri", .str "https://ca/chal")]])])
  selfCheck := some "tok.T\n"
  triggerNonce := .ok "N2"
  triggerResp := fun _ => .ok 202 .null
  polls := [.ok (Json.obj [("status", .str "valid")])]

/-- A world whose self-check fetch returns an unrelated body. -/
def c5wEnv : DomainEnv testPrims where
  authzNonce := .ok "N"
  authzResp := fun _ => .ok 201 (Json.obj [("challenges", .arr
    [Json.obj [("type", .str "http-01"), ("token", .str "tok"),
               ("uri", .str "https://ca/chal")]])])
  selfCheck := some "WRONG"
  triggerNonce := .ok "N2"
  triggerResp := fun _ => .ok 202 .null
  polls := [.ok (Json.obj [("status", .str "valid")])]

/-- A world issuing a token with a slash in it, validating the challenge. -/
def c9Env : DomainEnv testPrims where
  authzNonce := .ok "N"
  authzResp := fun _ => .ok 201 (Json.obj [("challenges", .arr
    [Json.obj [("type", .str "http-01"), ("token", .str "tok/1"),
               ("uri", .str "https://ca/chal")]])])
  selfCheck := some "tok_1.T"
  triggerNonce := .ok "N2"
  triggerResp := fun _ => .ok 202 .null
  polls := [.ok (Json.obj [("status", .str "valid")])]

/-- A world that validates a clean-token challenge (the account thumbprint
of `testPrims` evaluates to `"B64"`). -/
def c1Env : DomainEnv testPrims where
  authzNonce := .ok "N"
  authzResp := fun _ => .ok 201 (Json.obj [("challenges", .arr
    [Json.obj [("type", .str "http-01"), ("token", .str "tok"),
               ("uri", .str "https://ca/chal")]])])
  selfCheck := some "tok.B64"
  triggerNonce := .ok "N2"
  triggerResp := fun _ => .ok 202 .null
  polls := [.ok (Json.obj [("status", .str "valid")])]

/-- A world that refuses the authorisation request with a 403. -/
def c1FailEnv : DomainEnv testPrims where
  authzNonce := .ok "N"
  authzResp := fun _ => .httpError 403 (.str "denied")
  selfCheck := none
  triggerNonce := .ok "N"
  triggerResp := fun _ => .ok 202 .null
  polls := []

/-- A CA polling answer whose payload's `status` field is `"pending"`. -/
def isPendingResp : PollResp → Bool
  | .ok payload =>
    match jlookup payload "status" with
    | some st => jeqStr st "pending"
    | none => false
  | .ioError _ _ => false

/-! ## Helper lemmas -/

theorem lookupField_setField_same (fs : List (String × Json)) (key : String)
    (v : Json) : lookupField (setField fs key v) key = some v := by
  induction fs with
  | nil => simp [setField, lookupField]
  | cons p rest ih =>
    by_cases h : p.1 = key
    · simp [setField, h, lookupField]
    · simp [setField, h, lookupField, ih]

theorem lookupField_setField_other (fs : List (String × Json))
    (key k : String) (v : Json) (hk : k ≠ key) :
    lookupField (setField fs key v) k = lookupField fs k := by
  induction fs with
  | nil => simp [setField, lookupField, Ne.symm hk]
  | cons p rest ih =>
    obtain ⟨k0, v0⟩ := p
    by_cases h : k0 = key
    · subst h
      simp [setField, lookupField, Ne.symm hk]
    · by_cases h2 : k0 = k
      · simp [setField, h, lookupField, h2, hk]
      · simp [setField, h, lookupField, h2, ih]

theorem length_setField_fresh (fs : List (String × Json)) (key : String)
    (v : Json) (hfresh : lookupField fs key = none) :
    (setField fs key v).length = fs.length + 1 := by
  induction fs with
  | nil => simp [setField]
  | cons p rest ih =>
    by_cases h : p.1 = key
    · simp [lookupField, h] at hfresh
    · simp [lookupField, h] at hfresh
      simp [setField, h, ih hfresh]

theorem sanitize_all_safe (s : String) :
    ∀ c ∈ (sanitize s).data, safeChar c = true := by
  intro c hc
  simp only [sanitize, List.mem_map] at hc
  obtain ⟨a, _, ha⟩ := hc
  by_cases h : safeChar a = true
  · rw [if_pos h] at ha; rw [← ha]; exact h
  · rw [if_neg h] at ha; rw [← ha]; decide

theorem sanitize_get (s : String) (i : Nat) (h1 : i < s.data.length)
    (h2 : i < (sanitize s).data.length) :
    (sanitize s).data.get ⟨i, h2⟩ =
      (if safeChar (s.data.get ⟨i, h1⟩) then s.data.get ⟨i, h1⟩ else '_') := by
  simp [sanitize, List.getElem_map]

theorem sanitize_ne_of_unsafe (t : String) (c : Char) (hc : c ∈ t.data)
    (hbad : safeChar c = false) : sanitize t ≠ t := by
  intro he
  obtain ⟨i, hget⟩ := List.mem_iff_get.mp hc
  have h2 : i.1 < (sanitize t).data.length := by
    rw [he]; exact i.2
  have hs := sanitize_get t i.1 i.2 h2
  have hi : t.data.get ⟨i.1, i.2⟩ = c := hget
  rw [hi, hbad] at hs
  rw [if_neg (by decide)] at hs
  have hd : (sanitize t).data = t.data := by rw [he]
  have := List.get_of_eq hd ⟨i.1, h2⟩
  rw [hs, hi] at this
  rw [← this] at hbad
  simp [safeChar] at hbad

theorem append_ne_of_ne (a b r : String) (h : a ≠ b) : a ++ r ≠ b ++ r := by
  intro he
  apply h
  have hd := congrArg String.data he
  rw [String.data_append a r, String.data_append b r] at hd
  exact String.ext (List.append_left_injective r.data hd)

theorem filterHttp01_eq_nil (cs : List Json)
    (h : ∀ c ∈ cs, ∃ t, jlookup c "type" = some t ∧
      jeqStr t "http-01" = false) :
    filterHttp01 cs = .ok [] := by
  induction cs with
  | nil => rfl
  | cons c rest ih =>
    obtain ⟨t, ht, hf⟩ := h c (by simp)
    simp [filterHttp01, ht, ih (fun c2 hc => h c2 (by simp [hc])), hf]

theorem pollLoop_events (domain uri path : String) (polls : List PollResp) :
    ∀ e ∈ (pollLoop domain uri path polls).2,
      e = .pollRequest uri ∨ e = .sleep 2 ∨ e = .removeFile path := by
  induction polls with
  | nil => simp [pollLoop]
  | cons q rest ih =>
    cases q with
    | ioError code body => simp [pollLoop]
    | ok payload =>
      cases hst : jlookup payload "status" with
      | none => simp [pollLoop, hst]
      | some st =>
        by_cases hp : jeqStr st "pending" = true
        · intro e he
          simp only [pollLoop, hst, hp, ite_true, List.mem_cons] at he
          rcases he with h | h | h
          · exact .inl h
          · exact .inr (.inl h)
          · exact ih e h
        · by_cases hv : jeqStr st "valid" = true <;>
            simp [pollLoop, hst, hp, hv]

/-- The authorisation request of one solver run, reduced (lines 152-157). -/
theorem authz_resolved (P : Prims) (key : P.Key) (CA : String)
    (header : Json) (domain : String) (env : DomainEnv P) (n : String)
    (body : Json) (hn : env.authzNonce = .ok n)
    (hresp : env.authzResp (mkEnvelope P key header (authzPayload domain) n) =
      .ok 201 body) :
    send_signed P key CA (CA ++ "/acme/new-authz") header
      (authzPayload domain) env.authzNonce env.authzResp =
      .ok (some 201, body) := by
  simp [send_signed, hn, hresp]

/-- Failure of the local self-check (lines 167-176): the proof file is
removed and the run stops before any trigger POST. -/
theorem verifyDomain_selfcheck_fail (P : Prims) (key : P.Key)
    (CA acme_dir : String) (header : Json) (tp : String) (domain : String)
    (env : DomainEnv P) (body : Json) (cs : List Json)
    (chal : Json) (more : List Json) (t : String)
    (hauthz : send_signed P key CA (CA ++ "/acme/new-authz") header
      (authzPayload domain) env.authzNonce env.authzResp =
      .ok (some 201, body))
    (hch : jlookup body "challenges" = some (.arr cs))
    (hfil : filterHttp01 cs = .ok (chal :: more))
    (htok : jlookupStr chal "token" = some t)
    (hsc : env.selfCheck = none ∨
      ∃ b, env.selfCheck = some b ∧ pyStrip b ≠ sanitize t ++ "." ++ tp) :
    verifyDomain P key CA acme_dir header tp domain env =
      (some (.error (.selfCheckFailed (acme_dir ++ "/" ++ sanitize t)
        ("http://" ++ domain ++ "/.well-known/acme-challenge/" ++
          sanitize t))),
       [.newAuthzRequest domain,
        .writeFile (acme_dir ++ "/" ++ sanitize t) (sanitize t ++ "." ++ tp),
        .selfCheckFetch
          ("http://" ++ domain ++ "/.well-known/acme-challenge/" ++
            sanitize t),
        .removeFile (acme_dir ++ "/" ++ sanitize t)]) := by
  rcases hsc with h | ⟨b, hb, hne⟩
  · simp [verifyDomain, hauthz, hch, hfil, htok, h]
  · simp [verifyDomain, hauthz, hch, hfil, htok, hb, hne]

/-- Shape of the solver trace once the authorisation answer provides an
http-01 challenge with token `t`: the run starts with the `new-authz` call,
the proof-file write and the self-check fetch, and everything after is a
removal of the proof file, the trigger POST carrying the sanitized key
authorization, polls of the challenge URI, or sleeps. -/
theorem verifyDomain_good_trace (P : Prims) (key : P.Key)
    (CA acme_dir : String) (header : Json) (tp : String) (domain : String)
    (env : DomainEnv P) (body : Json) (cs : List Json)
    (chal : Json) (more : List Json) (t : String)
    (hauthz : send_signed P key CA (CA ++ "/acme/new-authz") header
      (authzPayload domain) env.authzNonce env.authzResp =
      .ok (some 201, body))
    (hch : jlookup body "challenges" = some (.arr cs))
    (hfil : filterHttp01 cs = .ok (chal :: more))
    (htok : jlookupStr chal "token" = some t) :
    ∃ post,
      (verifyDomain P key CA acme_dir header tp domain env).2 =
        .newAuthzRequest domain ::
        .writeFile (acme_dir ++ "/" ++ sanitize t)
          (sanitize t ++ "." ++ tp) ::
        .selfCheckFetch
          ("http://" ++ domain ++ "/.well-known/acme-challenge/" ++
            sanitize t) :: post ∧
      ∀ e ∈ post, e = .removeFile (acme_dir ++ "/" ++ sanitize t) ∨
        (∃ uri, jlookupStr chal "uri" = some uri ∧
          (e = .triggerRequest uri (sanitize t ++ "." ++ tp) ∨
            e = .pollRequest uri)) ∨
        e = .sleep 2 := by
  cases hsc : env.selfCheck with
  | none =>
    refine ⟨[.removeFile (acme_dir ++ "/" ++ sanitize t)], ?_, ?_⟩
    · simp [verifyDomain, hauthz, hch, hfil, htok, hsc]
    · intro e he
      simp only [List.mem_singleton] at he
      exact .inl he
  | some b =>
    by_cases hok : pyStrip b = sanitize t ++ "." ++ tp
    case neg =>
      refine ⟨[.removeFile (acme_dir ++ "/" ++ sanitize t)], ?_, ?_⟩
      · simp [verifyDomain, hauthz, hch, hfil, htok, hsc, hok]
      · intro e he
        simp only [List.mem_singleton] at he
        exact .inl he
    case pos =>
      cases huri : jlookupStr chal "uri" with
      | none =>
        refine ⟨[], ?_, by simp⟩
        simp [verifyDomain, hauthz, hch, hfil, htok, hsc, hok, huri]
      | some uri =>
        cases hts : send_signed P key CA uri header
            (triggerPayload (sanitize t ++ "." ++ tp)) env.triggerNonce
            env.triggerResp with
        | error e2 =>
          refine ⟨[.triggerRequest uri (sanitize t ++ "." ++ tp)], ?_, ?_⟩
          · simp [verifyDomain, hauthz, hch, hfil, htok, hsc, hok, huri, hts]
          · intro e he
            simp only [List.mem_singleton] at he
            exact .inr (.inl ⟨uri, rfl, .inl he⟩)
        | ok pr =>
          obtain ⟨tcode, tres⟩ := pr
          by_cases h202 : tcode = some 202
          case neg =>
            refine ⟨[.triggerRequest uri (sanitize t ++ "." ++ tp)], ?_, ?_⟩
            · simp [verifyDomain, hauthz, hch, hfil, htok, hsc, hok, huri, hts,
                h202]
            · intro e he
              simp only [List.mem_singleton] at he
              exact .inr (.inl ⟨uri, rfl, .inl he⟩)
          case pos =>
            refine ⟨.triggerRequest uri (sanitize t ++ "." ++ tp) ::
              (pollLoop domain uri (acme_dir ++ "/" ++ sanitize t)
                env.polls).2, ?_, ?_⟩
            · simp [verifyDomain, hauthz, hch, hfil, htok, hsc, hok, huri, hts,
                h202]
            · intro e he
              simp only [List.mem_cons] at he
              rcases he with h | h
              · exact .inr (.inl ⟨uri, rfl, .inl h⟩)
              · rcases pollLoop_events domain uri
                  (acme_dir ++ "/" ++ sanitize t) env.polls e h with
                  h2 | h2 | h2
                · exact .inr (.inl ⟨uri, rfl, .inr h2⟩)
                · exact .inr (.inr h2)
                · exact .inl h2


theorem authzDomains_append (a b : List Event) :
    authzDomains (a ++ b) = authzDomains a ++ authzDomains b := by
  simp [authzDomains]

theorem pollLoop_authz (domain uri path : String) (polls : List PollResp) :
    authzDomains (pollLoop domain uri path polls).2 = [] ∧
    Event.newCertRequest ∉ (pollLoop domain uri path polls).2 := by
  constructor
  · rw [authzDomains, List.filterMap_eq_nil_iff]
    intro e he
    rcases pollLoop_events domain uri path polls e he with h | h | h <;>
      subst h <;> rfl
  · intro hmem
    rcases pollLoop_events domain uri path polls _ hmem with h | h | h <;>
      simp at h

/-- Every solver run's trace starts with its own `new-authz` event, and no
later event of the run is a `new-authz` or `new-cert` request. -/
theorem verifyDomain_trace_shape (P : Prims) (key : P.Key)
    (CA acme_dir : String) (header : Json) (tp : String) (domain : String)
    (env : DomainEnv P) :
    ∃ tail, (verifyDomain P key CA acme_dir header tp domain env).2 =
      .newAuthzRequest domain :: tail ∧
      ∀ e ∈ tail, authzOf e = none ∧ e ≠ Event.newCertRequest := by
  cases hs : send_signed P key CA (CA ++ "/acme/new-authz") header
      (authzPayload domain) env.authzNonce env.authzResp with
  | error e2 => exact ⟨[], by simp [verifyDomain, hs], by simp⟩
  | ok pr =>
    obtain ⟨code, result⟩ := pr
    by_cases h201 : code = some 201
    case neg => exact ⟨[], by simp [verifyDomain, hs, h201], by simp⟩
    case pos =>
      subst h201
      cases hch : jlookup result "challenges" with
      | none => exact ⟨[], by simp [verifyDomain, hs, hch], by simp⟩
      | some j =>
        cases j with
        | null => exact ⟨[], by simp [verifyDomain, hs, hch], by simp⟩
        | str s2 => exact ⟨[], by simp [verifyDomain, hs, hch], by simp⟩
        | num n2 => exact ⟨[], by simp [verifyDomain, hs, hch], by simp⟩
        | bool b2 => exact ⟨[], by simp [verifyDomain, hs, hch], by simp⟩
        | obj fs2 => exact ⟨[], by simp [verifyDomain, hs, hch], by simp⟩
        | arr cs =>
          cases hfil : filterHttp01 cs with
          | error e2 =>
            exact ⟨[], by simp [verifyDomain, hs, hch, hfil], by simp⟩
          | ok l =>
            cases l with
            | nil =>
              exact ⟨[], by simp [verifyDomain, hs, hch, hfil], by simp⟩
            | cons chal more =>
              cases htok : jlookupStr chal "token" with
              | none =>
                exact ⟨[], by simp [verifyDomain, hs, hch, hfil, htok],
                  by simp⟩
              | some t =>
                obtain ⟨post, htr, hpost⟩ := verifyDomain_good_trace P key
                  CA acme_dir header tp domain env result cs chal more t hs
                  hch hfil htok
                refine ⟨_ :: _ :: post, by rw [htr], ?_⟩
                intro e he
                simp only [List.mem_cons] at he
                rcases he with h | h | h
                · subst h; exact ⟨rfl, by simp⟩
                · subst h; exact ⟨rfl, by simp⟩
                · rcases hpost e h with h2 | ⟨uri, _, h2 | h2⟩ | h2 <;>
                    subst h2 <;> exact ⟨rfl, by simp⟩

theorem verifyDomain_authz_trace (P : Prims) (key : P.Key)
    (CA acme_dir : String) (header : Json) (tp : String) (domain : String)
    (env : DomainEnv P) :
    authzDomains (verifyDomain P key CA acme_dir header tp domain env).2 =
      [domain] ∧
    Event.newCertRequest ∉
      (verifyDomain P key CA acme_dir header tp domain env).2 := by
  obtain ⟨tail, htr, hp⟩ := verifyDomain_trace_shape P key CA acme_dir
    header tp domain env
  rw [htr]
  constructor
  · have hnil : List.filterMap authzOf tail = [] :=
      List.filterMap_eq_nil_iff.mpr (fun e he => (hp e he).1)
    simp [authzDomains, authzOf, hnil]
  · intro hmem
    simp only [List.mem_cons] at hmem
    rcases hmem with h | h
    · simp at h
    · exact (hp _ h).2 rfl

/-- A fully successful domain loop validated every domain, in order, and
made no `new-cert` request. -/
theorem verifyDomains_ok (P : Prims) (key : P.Key) (CA acme_dir : String)
    (header : Json) (tp : String) (env : Nat → DomainEnv P) :
    ∀ (ds : List String) (i : Nat),
      (verifyDomains P key CA acme_dir header tp env ds i).1 =
        some (.ok ()) →
      (∀ j (h : j < ds.length),
        (verifyDomain P key CA acme_dir header tp (ds.get ⟨j, h⟩)
          (env (i + j))).1 = some (.ok ())) ∧
      authzDomains (verifyDomains P key CA acme_dir header tp env ds i).2 =
        ds ∧
      Event.newCertRequest ∉
        (verifyDomains P key CA acme_dir header tp env ds i).2 := by
  intro ds
  induction ds with
  | nil =>
    intro i _
    exact ⟨fun j hj => absurd hj (by simp),
      by simp [verifyDomains, authzDomains], by simp [verifyDomains]⟩
  | cons d rest ih =>
    intro i hok
    cases hr : (verifyDomain P key CA acme_dir header tp d (env i)).1 with
    | none => simp [verifyDomains, hr] at hok
    | some x =>
      cases x with
      | error e2 => simp [verifyDomains, hr] at hok
      | ok u =>
        have hok2 : (verifyDomains P key CA acme_dir header tp env rest
            (i + 1)).1 = some (.ok ()) := by
          simpa [verifyDomains, hr] using hok
        obtain ⟨hall, had, hnc⟩ := ih (i + 1) hok2
        have htr : (verifyDomains P key CA acme_dir header tp env
            (d :: rest) i).2 =
            (verifyDomain P key CA acme_dir header tp d (env i)).2 ++
            (verifyDomains P key CA acme_dir header tp env rest
              (i + 1)).2 := by
          simp [verifyDomains, hr]
        obtain ⟨hvada, hvadnc⟩ := verifyDomain_authz_trace P key CA acme_dir
          header tp d (env i)
        refine ⟨?_, ?_, ?_⟩
        · intro j hj
          cases j with
          | zero => simpa using hr
          | succ j2 =>
            have hj2 : j2 < rest.length := by simpa using hj
            have := hall j2 hj2
            rw [show (i + 1) + j2 = i + (j2 + 1) by omega] at this
            simpa using this
        · rw [htr, authzDomains_append, hvada, had]
          rfl
        · rw [htr]
          intro hmem
          rcases List.mem_append.mp hmem with h | h
          · exact hvadnc h
          · exact hnc h

/-- A domain loop whose first failure is at position `pre.length` stops
there: its result is that failure, it requested challenges exactly for the
prefix up to and including the failing domain, and made no `new-cert`
request. -/
theorem verifyDomains_fail (P : Prims) (key : P.Key) (CA acme_dir : String)
    (header : Json) (tp : String) (env : Nat → DomainEnv P) :
    ∀ (pre : List String) (i : Nat) (d : String) (post : List String)
      (e : PyErr),
      (∀ j (h : j < pre.length),
        (verifyDomain P key CA acme_dir header tp (pre.get ⟨j, h⟩)
          (env (i + j))).1 = some (.ok ())) →
      (verifyDomain P key CA acme_dir header tp d
        (env (i + pre.length))).1 = some (.error e) →
      (verifyDomains P key CA acme_dir header tp env (pre ++ d :: post)
        i).1 = some (.error e) ∧
      authzDomains (verifyDomains P key CA acme_dir header tp env
        (pre ++ d :: post) i).2 = pre ++ [d] ∧
      Event.newCertRequest ∉
        (verifyDomains P key CA acme_dir header tp env (pre ++ d :: post)
          i).2 := by
  intro pre
  induction pre with
  | nil =>
    intro i d post e _ hfail
    simp only [List.length_nil, Nat.add_zero] at hfail
    obtain ⟨hvada, hvadnc⟩ := verifyDomain_authz_trace P key CA acme_dir
      header tp d (env i)
    have htr2 : (verifyDomains P key CA acme_dir header tp env (d :: post)
        i).2 = (verifyDomain P key CA acme_dir header tp d (env i)).2 := by
      simp [verifyDomains, hfail]
    refine ⟨by simp [verifyDomains, hfail], ?_, ?_⟩
    · simp only [List.nil_append]
      rw [htr2, hvada]
    · simp only [List.nil_append, htr2]
      exact hvadnc
  | cons p pre2 ih =>
    intro i d post e hpre hfail
    have h0 : (verifyDomain P key CA acme_dir header tp p (env i)).1 =
        some (.ok ()) := by
      have := hpre 0 (by simp)
      simpa using this
    have hrec := ih (i + 1) d post e
      (fun j hj => by
        have hj1 : j + 1 < (p :: pre2).length := by simpa using hj
        have := hpre (j + 1) hj1
        rw [show i + (j + 1) = (i + 1) + j by omega] at this
        simpa using this)
      (by
        rw [show (i + 1) + pre2.length = i + (p :: pre2).length by
          simp; omega]
        exact hfail)
    obtain ⟨hfst, had, hnc⟩ := hrec
    have htr : (verifyDomains P key CA acme_dir header tp env
        ((p :: pre2) ++ d :: post) i).2 =
        (verifyDomain P key CA acme_dir header tp p (env i)).2 ++
        (verifyDomains P key CA acme_dir header tp env (pre2 ++ d :: post)
          (i + 1)).2 := by
      simp [verifyDomains, h0]
    have hfst2 : (verifyDomains P key CA acme_dir header tp env
        ((p :: pre2) ++ d :: post) i).1 =
        (verifyDomains P key CA acme_dir header tp env (pre2 ++ d :: post)
          (i + 1)).1 := by
      simp [verifyDomains, h0]
    obtain ⟨hvada, hvadnc⟩ := verifyDomain_authz_trace P key CA acme_dir
      header tp p (env i)
    refine ⟨by rw [hfst2]; exact hfst, ?_, ?_⟩
    · rw [htr, authzDomains_append, hvada, had]
      rfl
    · rw [htr]
      intro hmem
      rcases List.mem_append.mp hmem with h | h
      · exact hvadnc h
      · exact hnc h

/-- `get_crt_from_csr` with the header lookup and thumbprint computation
(lines 143-145) resolved. -/
theorem get_crt_unfold (P : Prims) (key : P.Key) (csr : P.Csr)
    (domains : List String) (acme_dir CA : String) (env : Nat → DomainEnv P)
    (certNonce : Except String String)
    (certResp : SignedEnvelope → PostOutcome) :
    get_crt_from_csr P key csr domains acme_dir CA env certNonce certResp =
      (match (verifyDomains P key CA acme_dir (acme_header P key)
          (account_thumbprint P key) env domains 0).1 with
       | none => (none, (verifyDomains P key CA acme_dir (acme_header P key)
           (account_thumbprint P key) env domains 0).2)
       | some (.error e) => (some (.error e),
           (verifyDomains P key CA acme_dir (acme_header P key)
             (account_thumbprint P key) env domains 0).2)
       | some (.ok ()) =>
         match send_signed P key CA (CA ++ "/acme/new-cert")
             (acme_header P key) (newCertPayload P (P.dumpCsrDer csr))
             certNonce certResp with
         | .error e2 => (some (.error e2),
             (verifyDomains P key CA acme_dir (acme_header P key)
               (account_thumbprint P key) env domains 0).2 ++
               [.newCertRequest])
         | .ok (code, result) =>
           if code = some 201 then
             (some (.ok (P.loadCertDer result)),
              (verifyDomains P key CA acme_dir (acme_header P key)
                (account_thumbprint P key) env domains 0).2 ++
                [.newCertRequest])
           else
             (some (.error (.errorSigningCertificate code result)),
              (verifyDomains P key CA acme_dir (acme_header P key)
                (account_thumbprint P key) env domains 0).2 ++
                [.newCertRequest])) := rfl

/-! ## Claim theorems -/

/-- C2: the polling loop of `get_crt_from_csr`, for every sequence of CA
status answers: each leading `"pending"` answer contributes exactly one poll
followed by a fixed 2-second sleep and the loop goes on, with no iteration
cap (an all-`pending` window leaves it still running); the first `"valid"`
answer deletes the published proof file and ends the domain successfully,
ignoring any later answers; any other first non-pending status raises the
challenge-failure error carrying the CA's full status payload, with no file
deletion. -/
theorem C2_poll_loop (domain uri path : String) :
    (∀ ps rest, (∀ q ∈ ps, isPendingResp q = true) →
      pollLoop domain uri path (ps ++ rest) =
        ((pollLoop domain uri path rest).1,
         (ps.map fun _ => [Event.pollRequest uri, Event.sleep 2]).flatten ++
           (pollLoop domain uri path rest).2)) ∧
    (∀ ps, (∀ q ∈ ps, isPendingResp q = true) →
      (pollLoop domain uri path ps).1 = none) ∧
    (∀ payload rest st, jlookup payload "status" = some st →
      jeqStr st "valid" = true →
      pollLoop domain uri path (.ok payload :: rest) =
        (some (.ok ()), [.pollRequest uri, .removeFile path])) ∧
    (∀ payload rest st, jlookup payload "status" = some st →
      jeqStr st "pending" = false → jeqStr st "valid" = false →
      pollLoop domain uri path (.ok payload :: rest) =
        (some (.error (.challengeDidNotPass domain payload)),
         [.pollRequest uri])) := by
  have hmain : ∀ ps rest, (∀ q ∈ ps, isPendingResp q = true) →
      pollLoop domain uri path (ps ++ rest) =
        ((pollLoop domain uri path rest).1,
         (ps.map fun _ => [Event.pollRequest uri, Event.sleep 2]).flatten ++
           (pollLoop domain uri path rest).2) := by
    intro ps
    induction ps with
    | nil => intro rest _; simp
    | cons q qs ih =>
      intro rest hp
      have hq := hp q (by simp)
      cases q with
      | ioError code body => simp [isPendingResp] at hq
      | ok payload =>
        cases hst : jlookup payload "status" with
        | none => simp [isPendingResp, hst] at hq
        | some st =>
          have hpend : jeqStr st "pending" = true := by
            simpa [isPendingResp, hst] using hq
          simp only [List.cons_append, pollLoop, hst, hpend, if_true,
            ite_true, List.append_eq, List.map_cons, List.flatten_cons]
          rw [ih rest (fun q hq2 => hp q (by simp [hq2]))]
          simp
  refine ⟨hmain, ?_, ?_, ?_⟩
  · intro ps hp
    have := hmain ps [] hp
    rw [List.append_nil] at this
    rw [this]
    rfl
  · intro payload rest st hst hval
    have hpend : jeqStr st "pending" = false := by
      cases st <;> simp [jeqStr] at hval ⊢
      simp [hval]
    simp [pollLoop, hst, hpend, hval]
  · intro payload rest st hst hpend hval
    simp [pollLoop, hst, hpend, hval]

/-- C7: every character of the sanitized token filename is in
`[A-Za-z0-9_-]`; characters outside the class are replaced by `_` in place,
characters inside it are kept unchanged in their position (length is
preserved). -/
theorem C7_sanitize_charwise (s : String) :
    (∀ c ∈ (sanitize s).data, safeChar c = true) ∧
    (sanitize s).data.length = s.data.length ∧
    ∀ i (h1 : i < s.data.length) (h2 : i < (sanitize s).data.length),
      (safeChar (s.data.get ⟨i, h1⟩) = true →
        (sanitize s).data.get ⟨i, h2⟩ = s.data.get ⟨i, h1⟩) ∧
      (safeChar (s.data.get ⟨i, h1⟩) = false →
        (sanitize s).data.get ⟨i, h2⟩ = '_') := by
  refine ⟨sanitize_all_safe s, by simp [sanitize], ?_⟩
  intro i h1 h2
  constructor
  · intro hsafe
    rw [sanitize_get s i h1 h2, if_pos hsafe]
  · intro hbad
    rw [sanitize_get s i h1 h2,
      if_neg (by rw [hbad]; exact Bool.false_ne_true)]

/-- C7 witness: on the token `"a/b"`, the slash at position 1 is replaced by
an underscore while the other positions survive unchanged. -/
theorem C7_witness :
    safeChar ("a/b".data.get ⟨1, by decide⟩) = false ∧
    (sanitize "a/b").data.get ⟨1, by decide⟩ = '_' :=
  ⟨by decide,
   ((C7_sanitize_charwise "a/b").2.2 1 (by decide) (by decide)).2 (by decide)⟩

/-- C3 counterexample: a transport failure carrying no status (an `IOError`
without a `code` attribute) makes `send_signed` return the tuple
`(None, str(e))`, not raise a `TransportError`. -/
theorem C3_counterexample :
    send_signed testPrims () "https://ca" "https://ca/acme/new-reg"
      (acme_header testPrims ()) newRegPayload (.ok "nonce")
      (fun _ => .noStatus "connection refused") =
      .ok (none, .str "connection refused") := rfl

/-- C3 amended: every outcome of the signed POST is returned as a
`(statusCode, body)` tuple — responses and `HTTPError`s as
`(status, body)`, transport failures carrying no status as
`(None, str(e))` — and the only error that escapes `send_signed` is an
`IOError` from the nonce fetch itself, which is outside the `try`. -/
theorem C3_send_signed_amended (P : Prims) (key : P.Key) (CA url : String)
    (header payload : Json) (n : String)
    (post : SignedEnvelope → PostOutcome) :
    (∀ code body,
      respondsWith post (mkEnvelope P key header payload n) code body →
      send_signed P key CA url header payload (.ok n) post =
        .ok (some code, body)) ∧
    (∀ msg, post (mkEnvelope P key header payload n) = .noStatus msg →
      send_signed P key CA url header payload (.ok n) post =
        .ok (none, .str msg)) ∧
    (∀ msg post2, send_signed P key CA url header payload (.error msg) post2 =
      .error (.nonceFetchIOError msg)) := by
  refine ⟨?_, ?_, ?_⟩
  · rintro code body (h | h) <;> simp [send_signed, h]
  · intro msg h
    simp [send_signed, h]
  · intro msg post2
    simp [send_signed]

/-- C3 witness: concrete instances of all three amended branches. -/
theorem C3_witness :
    send_signed testPrims () "https://ca" "u" (acme_header testPrims ())
      newRegPayload (.ok "n") (fun _ => .httpError 400 (.str "bad")) =
      .ok (some 400, .str "bad") ∧
    send_signed testPrims () "https://ca" "u" (acme_header testPrims ())
      newRegPayload (.ok "n") (fun _ => .noStatus "refused") =
      .ok (none, .str "refused") ∧
    send_signed testPrims () "https://ca" "u" (acme_header testPrims ())
      newRegPayload (.error "dns failure") (fun _ => .noStatus "x") =
      .error (.nonceFetchIOError "dns failure") :=
  ⟨(C3_send_signed_amended testPrims () "https://ca" "u"
      (acme_header testPrims ()) newRegPayload "n"
      (fun _ => .httpError 400 (.str "bad"))).1 400 (.str "bad") (.inr rfl),
   (C3_send_signed_amended testPrims () "https://ca" "u"
      (acme_header testPrims ()) newRegPayload "n"
      (fun _ => .noStatus "refused")).2.1 "refused" rfl,
   (C3_send_signed_amended testPrims () "https://ca" "u"
      (acme_header testPrims ()) newRegPayload "n"
      (fun _ => .noStatus "x")).2.2 "dns failure" (fun _ => .noStatus "x")⟩

/-- C6: `register_account` returns `Registered` (`true`) on 201,
`AlreadyRegistered` (`false`) on 409 (a success, not an error), raises
`RegistrationError` carrying the CA's status and body on any other status
(also on a no-status transport failure, with status `None`), and a
201-then-409 pair of CA answers — what the CA gives a key registered twice —
yields `Registered` then `AlreadyRegistered`, never an error. -/
theorem C6_register_account (P : Prims) (key : P.Key) (CA : String)
    (n n2 : String) (post post2 : SignedEnvelope → PostOutcome) :
    (∀ body,
      respondsWith post (mkEnvelope P key (acme_header P key) newRegPayload n)
        201 body →
      register_account P key CA (.ok n) post = .ok true) ∧
    (∀ body,
      respondsWith post (mkEnvelope P key (acme_header P key) newRegPayload n)
        409 body →
      register_account P key CA (.ok n) post = .ok false) ∧
    (∀ code body, code ≠ 201 → code ≠ 409 →
      respondsWith post (mkEnvelope P key (acme_header P key) newRegPayload n)
        code body →
      register_account P key CA (.ok n) post =
        .error (.errorRegistering (some code) body)) ∧
    (∀ msg,
      post (mkEnvelope P key (acme_header P key) newRegPayload n) =
        .noStatus msg →
      register_account P key CA (.ok n) post =
        .error (.errorRegistering none (.str msg))) ∧
    (∀ body body2,
      respondsWith post (mkEnvelope P key (acme_header P key) newRegPayload n)
        201 body →
      respondsWith post2
        (mkEnvelope P key (acme_header P key) newRegPayload n2) 409 body2 →
      register_account P key CA (.ok n) post = .ok true ∧
      register_account P key CA (.ok n2) post2 = .ok false) := by
  refine ⟨?_, ?_, ?_, ?_, ?_⟩
  · rintro body (h | h) <;> simp [register_account, send_signed, h]
  · rintro body (h | h) <;> simp [register_account, send_signed, h]
  · rintro code body hc1 hc2 (h | h) <;>
      simp [register_account, send_signed, h, hc1, hc2]
  · intro msg h
    simp [register_account, send_signed, h]
  · rintro body body2 (h | h) (h2 | h2) <;>
      simp [register_account, send_signed, h, h2]

/-- C6 witness: a CA answering 201 then 409 yields `Registered` then
`AlreadyRegistered`; an answer of 500 yields a registration error carrying
status and body. -/
theorem C6_witness :
    register_account testPrims () "https://ca" (.ok "n1")
      (fun _ => .ok 201 .null) = .ok true ∧
    register_account testPrims () "https://ca" (.ok "n2")
      (fun _ => .httpError 409 .null) = .ok false ∧
    register_account testPrims () "https://ca" (.ok "n3")
      (fun _ => .httpError 500 (.str "boom")) =
      .error (.errorRegistering (some 500) (.str "boom")) := by
  refine ⟨?_, ?_, ?_⟩
  · exact ((C6_register_account testPrims () "https://ca" "n1" "n1"
      (fun _ => .ok 201 .null) (fun _ => .ok 201 .null)).1 .null (.inl rfl))
  · exact ((C6_register_account testPrims () "https://ca" "n2" "n2"
      (fun _ => .httpError 409 .null) (fun _ => .httpError 409 .null)).2.1
      .null (.inr rfl))
  · exact ((C6_register_account testPrims () "https://ca" "n3" "n3"
      (fun _ => .httpError 500 (.str "boom"))
      (fun _ => .httpError 500 (.str "boom"))).2.2.1 500 (.str "boom")
      (by decide) (by decide) (.inr rfl))

/-- C8: the protected object `send_signed` encodes and signs is the request
header with exactly one field added, the fresh nonce: two calls with the same
header produce protected objects agreeing on every key except `nonce`, the
signature is the RSA/SHA-256 signature of the ASCII string
`protected64 ++ "." ++ payload64`, and the original header is embedded
unmodified in the envelope. -/
theorem C8_protected_nonce (P : Prims) (key : P.Key)
    (hf : List (String × Json)) (payload : Json) (n1 n2 : String)
    (hfresh : lookupField hf "nonce" = none) :
    (mkEnvelope P key (.obj hf) payload n1).protected64 =
      base64_enc P (P.encodeUtf8
        (P.dumps (.obj (setField hf "nonce" (.str n1))))) ∧
    lookupField (setField hf "nonce" (.str n1)) "nonce" = some (.str n1) ∧
    lookupField (setField hf "nonce" (.str n2)) "nonce" = some (.str n2) ∧
    (∀ k, k ≠ "nonce" →
      lookupField (setField hf "nonce" (.str n1)) k = lookupField hf k ∧
      lookupField (setField hf "nonce" (.str n2)) k = lookupField hf k) ∧
    (setField hf "nonce" (.str n1)).length = hf.length + 1 ∧
    (mkEnvelope P key (.obj hf) payload n1).payload64 =
      (mkEnvelope P key (.obj hf) payload n2).payload64 ∧
    (mkEnvelope P key (.obj hf) payload n1).signature =
      base64_enc P (P.signRSA key
        ((mkEnvelope P key (.obj hf) payload n1).protected64 ++ "." ++
          (mkEnvelope P key (.obj hf) payload n1).payload64) "sha256") ∧
    (mkEnvelope P key (.obj hf) payload n1).header = .obj hf := by
  refine ⟨rfl, lookupField_setField_same hf "nonce" (.str n1),
    lookupField_setField_same hf "nonce" (.str n2), ?_,
    length_setField_fresh hf "nonce" (.str n1) hfresh, rfl, rfl, rfl⟩
  intro k hk
  exact ⟨lookupField_setField_other hf "nonce" k (.str n1) hk,
    lookupField_setField_other hf "nonce" k (.str n2) hk⟩

/-- C8 witness: the concrete ACME header, two nonces. -/
theorem C8_witness :
    lookupField [("alg", Json.str "RS256")] "nonce" = none ∧
    lookupField (setField [("alg", Json.str "RS256")] "nonce" (.str "N1"))
      "nonce" = some (.str "N1") ∧
    lookupField (setField [("alg", Json.str "RS256")] "nonce" (.str "N1"))
      "alg" = lookupField [("alg", Json.str "RS256")] "alg" ∧
    (setField [("alg", Json.str "RS256")] "nonce" (.str "N1")).length =
      [("alg", Json.str "RS256")].length + 1 :=
  ⟨rfl,
   (C8_protected_nonce testPrims () [("alg", Json.str "RS256")] .null
      "N1" "N2" rfl).2.1,
   ((C8_protected_nonce testPrims () [("alg", Json.str "RS256")] .null
      "N1" "N2" rfl).2.2.2.1 "alg" (by decide)).1,
   (C8_protected_nonce testPrims () [("alg", Json.str "RS256")] .null
      "N1" "N2" rfl).2.2.2.2.1⟩

/-- C10: the `new-reg` payload `register_account` sends carries the fixed
LE-SA-v1.0.1 agreement URL for every key and CA — the only POST it makes is
the `new-reg` envelope over `newRegPayload` — while configuration resolution
computes `authority_agreement` with the LE-SA-v1.2 URL as default, a distinct
value that `register_account` never consults. -/
theorem C10_agreement_hardcoded (P : Prims) (key : P.Key) (CA : String)
    (n : String) (post post2 : SignedEnvelope → PostOutcome)
    (contains : String → String → Bool) :
    (post (mkEnvelope P key (acme_header P key) newRegPayload n) =
        post2 (mkEnvelope P key (acme_header P key) newRegPayload n) →
      register_account P key CA (.ok n) post =
        register_account P key CA (.ok n) post2) ∧
    (mkEnvelope P key (acme_header P key) newRegPayload n).payload64 =
      base64_enc P (P.encodeUtf8 (P.dumps newRegPayload)) ∧
    jlookup newRegPayload "agreement" = some (.str leAgreement) ∧
    resolvedAuthorityAgreement contains [] (fun _ => none) =
      DEFAULT_AUTHORITY_AGREEMENT ∧
    leAgreement ≠ DEFAULT_AUTHORITY_AGREEMENT := by
  refine ⟨?_, rfl, rfl, rfl, by decide⟩
  intro h
  simp [register_account, send_signed, h]

/-- C10 witness: concrete instantiation with two transports agreeing on the
new-reg envelope. -/
theorem C10_witness :
    register_account testPrims () "https://ca" (.ok "n")
      (fun _ => .ok 201 .null) =
      register_account testPrims () "https://ca" (.ok "n")
      (fun e => if e.payload64 = e.payload64 then .ok 201 .null
                else .noStatus "x") :=
  (C10_agreement_hardcoded testPrims () "https://ca" "n"
    (fun _ => .ok 201 .null)
    (fun e => if e.payload64 = e.payload64 then .ok 201 .null
              else .noStatus "x")
    (fun _ _ => false)).1 (by simp)

/-- C4: when the new-authz answer's challenge list has no entry of type
`http-01`, the solver fails right there — before writing any proof file or
contacting anything else — with the error raised at the challenge-extraction
site (the `[...][0]` on the empty filter; the spec's name for this failure is
`UnsupportedChallengeError`). -/
theorem C4_no_http01 (P : Prims) (key : P.Key) (CA acme_dir : String)
    (header : Json) (tp : String) (domain : String) (env : DomainEnv P)
    (n : String) (body : Json) (cs : List Json)
    (hn : env.authzNonce = .ok n)
    (hresp : env.authzResp (mkEnvelope P key header (authzPayload domain) n) =
      .ok 201 body)
    (hch : jlookup body "challenges" = some (.arr cs))
    (hnone : ∀ c ∈ cs, ∃ t, jlookup c "type" = some t ∧
      jeqStr t "http-01" = false) :
    verifyDomain P key CA acme_dir header tp domain env =
      (some (.error .indexError), [.newAuthzRequest domain]) := by
  simp [verifyDomain,
    authz_resolved P key CA header domain env n body hn hresp, hch,
    filterHttp01_eq_nil cs hnone]

/-- C4 witness: a challenge list offering only `dns-01`. -/
theorem C4_witness :
    verifyDomain testPrims () "https://ca" "/acme" (acme_header testPrims ())
      "T" "example.com" c4Env =
      (some (.error .indexError), [.newAuthzRequest "example.com"]) :=
  C4_no_http01 testPrims () "https://ca" "/acme" (acme_header testPrims ())
    "T" "example.com" c4Env "N"
    (Json.obj [("challenges", .arr
      [Json.obj [("type", .str "dns-01"), ("token", .str "tok")]])])
    [Json.obj [("type", .str "dns-01"), ("token", .str "tok")]]
    rfl rfl rfl
    (by
      intro c hc
      simp only [List.mem_singleton] at hc
      subst hc
      exact ⟨.str "dns-01", rfl, by decide⟩)

/-- C5 counterexample: the self-check fetch returns the key authorization
with a trailing newline — a body that does not equal the expected string
exactly — yet the solver accepts it (the source compares the *stripped*
body), POSTs the trigger and completes the domain. -/
theorem C5_counterexample :
    verifyDomain testPrims () "https://ca" "/acme" (acme_header testPrims ())
      "T" "example.com" c5CxEnv =
      (some (.ok ()),
       [.newAuthzRequest "example.com",
        .writeFile "/acme/tok" "tok.T",
        .selfCheckFetch "http://example.com/.well-known/acme-challenge/tok",
        .triggerRequest "https://ca/chal" "tok.T",
        .pollRequest "https://ca/chal",
        .removeFile "/acme/tok"]) ∧
    c5CxEnv.selfCheck = some "tok.T\n" ∧ "tok.T\n" ≠ "tok.T" :=
  ⟨rfl, rfl, by decide⟩

/-- C5 amended: if the self-check fetch fails, or its body — after stripping
leading and trailing whitespace, which is how the source compares it — does
not equal the expected key-authorization string, the solver deletes the
published proof file and raises the self-check error without ever POSTing to
the challenge's trigger URI. -/
theorem C5_selfcheck_cleanup (P : Prims) (key : P.Key)
    (CA acme_dir : String) (header : Json) (tp : String) (domain : String)
    (env : DomainEnv P) (n : String) (body : Json) (cs : List Json)
    (chal : Json) (more : List Json) (t : String)
    (hn : env.authzNonce = .ok n)
    (hresp : env.authzResp (mkEnvelope P key header (authzPayload domain) n) =
      .ok 201 body)
    (hch : jlookup body "challenges" = some (.arr cs))
    (hfil : filterHttp01 cs = .ok (chal :: more))
    (htok : jlookupStr chal "token" = some t)
    (hsc : env.selfCheck = none ∨
      ∃ b, env.selfCheck = some b ∧ pyStrip b ≠ sanitize t ++ "." ++ tp) :
    verifyDomain P key CA acme_dir header tp domain env =
      (some (.error (.selfCheckFailed (acme_dir ++ "/" ++ sanitize t)
        ("http://" ++ domain ++ "/.well-known/acme-challenge/" ++
          sanitize t))),
       [.newAuthzRequest domain,
        .writeFile (acme_dir ++ "/" ++ sanitize t) (sanitize t ++ "." ++ tp),
        .selfCheckFetch
          ("http://" ++ domain ++ "/.well-known/acme-challenge/" ++
            sanitize t),
        .removeFile (acme_dir ++ "/" ++ sanitize t)]) ∧
    ∀ u k, Event.triggerRequest u k ∉
      (verifyDomain P key CA acme_dir header tp domain env).2 := by
  have h := verifyDomain_selfcheck_fail P key CA acme_dir header tp domain
    env body cs chal more t
    (authz_resolved P key CA header domain env n body hn hresp)
    hch hfil htok hsc
  refine ⟨h, ?_⟩
  rw [h]
  intro u k hk
  simp at hk

/-- C5 witness: a self-check body unrelated to the key authorization. -/
theorem C5_witness :
    verifyDomain testPrims () "https://ca" "/acme" (acme_header testPrims ())
      "T" "example.com" c5wEnv =
      (some (.error (.selfCheckFailed "/acme/tok"
        "http://example.com/.well-known/acme-challenge/tok")),
       [.newAuthzRequest "example.com",
        .writeFile "/acme/tok" "tok.T",
        .selfCheckFetch "http://example.com/.well-known/acme-challenge/tok",
        .removeFile "/acme/tok"]) :=
  (C5_selfcheck_cleanup testPrims () "https://ca" "/acme"
    (acme_header testPrims ()) "T" "example.com" c5wEnv "N"
    (Json.obj [("challenges", .arr
      [Json.obj [("type", .str "http-01"), ("token", .str "tok"),
                 ("uri", .str "https://ca/chal")]])])
    [Json.obj [("type", .str "http-01"), ("token", .str "tok"),
               ("uri", .str "https://ca/chal")]]
    (Json.obj [("type", .str "http-01"), ("token", .str "tok"),
               ("uri", .str "https://ca/chal")])
    [] "tok" rfl rfl rfl rfl rfl
    (.inr ⟨"WRONG", rfl, by decide⟩)).1

/-- C9: the key-authorization string is built from the *sanitized* token:
whatever the world answers, every proof-file write and every trigger POST of
the solver run carries `sanitize(token) ++ "." ++ thumbprint`; the self-check
accepts only that string; and for a token containing a character outside
`[A-Za-z0-9_-]` this differs from `rawToken ++ "." ++ thumbprint`. -/
theorem C9_keyauth_from_sanitized (P : Prims) (key : P.Key)
    (CA acme_dir : String) (header : Json) (tp : String) (domain : String)
    (env : DomainEnv P) (n : String) (body : Json) (cs : List Json)
    (chal : Json) (more : List Json) (t : String)
    (hn : env.authzNonce = .ok n)
    (hresp : env.authzResp (mkEnvelope P key header (authzPayload domain) n) =
      .ok 201 body)
    (hch : jlookup body "challenges" = some (.arr cs))
    (hfil : filterHttp01 cs = .ok (chal :: more))
    (htok : jlookupStr chal "token" = some t) :
    (∀ p content, Event.writeFile p content ∈
        (verifyDomain P key CA acme_dir header tp domain env).2 →
      p = acme_dir ++ "/" ++ sanitize t ∧
        content = sanitize t ++ "." ++ tp) ∧
    (∀ u k, Event.triggerRequest u k ∈
        (verifyDomain P key CA acme_dir header tp domain env).2 →
      k = sanitize t ++ "." ++ tp) ∧
    (∀ b, env.selfCheck = some b → pyStrip b ≠ sanitize t ++ "." ++ tp →
      (verifyDomain P key CA acme_dir header tp domain env).1 =
        some (.error (.selfCheckFailed (acme_dir ++ "/" ++ sanitize t)
          ("http://" ++ domain ++ "/.well-known/acme-challenge/" ++
            sanitize t)))) ∧
    (∀ c ∈ t.data, safeChar c = false →
      sanitize t ++ "." ++ tp ≠ t ++ "." ++ tp) := by
  obtain ⟨post, htr, hpost⟩ := verifyDomain_good_trace P key CA acme_dir
    header tp domain env body cs chal more t
    (authz_resolved P key CA header domain env n body hn hresp)
    hch hfil htok
  refine ⟨?_, ?_, ?_, ?_⟩
  · intro p content hmem
    rw [htr] at hmem
    simp only [List.mem_cons] at hmem
    rcases hmem with h | h | h | h
    · exact absurd h (by simp)
    · exact ⟨(Event.writeFile.injEq _ _ _ _ ▸ h).1,
        (Event.writeFile.injEq _ _ _ _ ▸ h).2⟩
    · exact absurd h (by simp)
    · rcases hpost _ h with h2 | ⟨uri, _, h2 | h2⟩ | h2 <;> simp at h2
  · intro u k hmem
    rw [htr] at hmem
    simp only [List.mem_cons] at hmem
    rcases hmem with h | h | h | h
    · exact absurd h (by simp)
    · exact absurd h (by simp)
    · exact absurd h (by simp)
    · rcases hpost _ h with h2 | ⟨uri, _, h2 | h2⟩ | h2
      · exact absurd h2 (by simp)
      · cases h2
        rfl
      · exact absurd h2 (by simp)
      · exact absurd h2 (by simp)
  · intro b hb hne
    rw [verifyDomain_selfcheck_fail P key CA acme_dir header tp domain env
      body cs chal more t
      (authz_resolved P key CA header domain env n body hn hresp)
      hch hfil htok (.inr ⟨b, hb, hne⟩)]
  · intro c hc hun
    have h1 : sanitize t ≠ t := sanitize_ne_of_unsafe t c hc hun
    have h2 : sanitize t ++ "." ≠ t ++ "." := append_ne_of_ne _ _ _ h1
    exact append_ne_of_ne _ _ _ h2

/-- C9 witness: a token `"tok/1"` with a slash; the trigger POST carries
`"tok_1.T"`, which differs from the raw-token authorization `"tok/1.T"`. -/
theorem C9_witness :
    (∀ u k, Event.triggerRequest u k ∈
        (verifyDomain testPrims () "https://ca" "/acme"
          (acme_header testPrims ()) "T" "example.com" c9Env).2 →
      k = sanitize "tok/1" ++ "." ++ "T") ∧
    sanitize "tok/1" ++ "." ++ "T" ≠ "tok/1" ++ "." ++ "T" := by
  have h := C9_keyauth_from_sanitized testPrims () "https://ca" "/acme"
    (acme_header testPrims ()) "T" "example.com" c9Env "N"
    (Json.obj [("challenges", .arr
      [Json.obj [("type", .str "http-01"), ("token", .str "tok/1"),
                 ("uri", .str "https://ca/chal")]])])
    [Json.obj [("type", .str "http-01"), ("token", .str "tok/1"),
               ("uri", .str "https://ca/chal")]]
    (Json.obj [("type", .str "http-01"), ("token", .str "tok/1"),
               ("uri", .str "https://ca/chal")])
    [] "tok/1" rfl rfl rfl rfl rfl
  exact ⟨h.2.1, h.2.2.2 '/' (by decide) (by decide)⟩

/-- C1: `get_crt_from_csr` validates the domains strictly sequentially in
input order — its trace's `new-authz` requests are exactly the input prefix
up to and including the first failing domain — the first failure aborts the
run with that very error, no challenge is requested for any later domain and
the `new-cert` request is never submitted; and a certificate is returned
only after every domain in the list was validated (and then the `new-cert`
request is made). -/
theorem C1_sequential_issuance (P : Prims) (key : P.Key) (csr : P.Csr)
    (acme_dir CA : String) (env : Nat → DomainEnv P)
    (certNonce : Except String String)
    (certResp : SignedEnvelope → PostOutcome) :
    (∀ (pre : List String) (d : String) (post : List String) (e : PyErr),
      (∀ j (h : j < pre.length),
        (verifyDomain P key CA acme_dir (acme_header P key)
          (account_thumbprint P key) (pre.get ⟨j, h⟩) (env j)).1 =
          some (.ok ())) →
      (verifyDomain P key CA acme_dir (acme_header P key)
        (account_thumbprint P key) d (env pre.length)).1 =
        some (.error e) →
      (get_crt_from_csr P key csr (pre ++ d :: post) acme_dir CA env
        certNonce certResp).1 = some (.error e) ∧
      authzDomains (get_crt_from_csr P key csr (pre ++ d :: post) acme_dir
        CA env certNonce certResp).2 = pre ++ [d] ∧
      Event.newCertRequest ∉ (get_crt_from_csr P key csr (pre ++ d :: post)
        acme_dir CA env certNonce certResp).2) ∧
    (∀ (domains : List String) (c : P.Cert),
      (get_crt_from_csr P key csr domains acme_dir CA env certNonce
        certResp).1 = some (.ok c) →
      (∀ j (h : j < domains.length),
        (verifyDomain P key CA acme_dir (acme_header P key)
          (account_thumbprint P key) (domains.get ⟨j, h⟩) (env j)).1 =
          some (.ok ())) ∧
      authzDomains (get_crt_from_csr P key csr domains acme_dir CA env
        certNonce certResp).2 = domains ∧
      Event.newCertRequest ∈ (get_crt_from_csr P key csr domains acme_dir
        CA env certNonce certResp).2) := by
  constructor
  · intro pre d post e hpre hfail
    obtain ⟨hfst, had, hnc⟩ := verifyDomains_fail P key CA acme_dir
      (acme_header P key) (account_thumbprint P key) env pre 0 d post e
      (fun j h => by rw [Nat.zero_add]; exact hpre j h)
      (by rw [Nat.zero_add]; exact hfail)
    refine ⟨?_, ?_, ?_⟩
    · rw [get_crt_unfold, hfst]
    · rw [get_crt_unfold, hfst]
      exact had
    · rw [get_crt_unfold, hfst]
      exact hnc
  · intro domains c hok
    cases hv : (verifyDomains P key CA acme_dir (acme_header P key)
        (account_thumbprint P key) env domains 0).1 with
    | none => rw [get_crt_unfold, hv] at hok; simp at hok
    | some x =>
      cases x with
      | error e2 => rw [get_crt_unfold, hv] at hok; simp at hok
      | ok u =>
        obtain ⟨hall, had, hnc⟩ := verifyDomains_ok P key CA acme_dir
          (acme_header P key) (account_thumbprint P key) env domains 0 hv
        have htr : (get_crt_from_csr P key csr domains acme_dir CA env
            certNonce certResp).2 =
            (verifyDomains P key CA acme_dir (acme_header P key)
              (account_thumbprint P key) env domains 0).2 ++
              [Event.newCertRequest] := by
          rw [get_crt_unfold, hv]
          cases hc : send_signed P key CA (CA ++ "/acme/new-cert")
              (acme_header P key) (newCertPayload P (P.dumpCsrDer csr))
              certNonce certResp with
          | error e2 => rfl
          | ok pr =>
            obtain ⟨code, result⟩ := pr
            by_cases h201 : code = some 201 <;> simp [h201]
        refine ⟨?_, ?_, ?_⟩
        · intro j hj
          have := hall j hj
          rw [Nat.zero_add] at this
          exact this
        · rw [htr, authzDomains_append, had]
          simp [authzDomains, authzOf]
        · rw [htr]
          exact List.mem_append_right _ (by simp)

/-- C1 witness: one domain validated end to end yields the certificate with
the `new-cert` request in the trace; and a run on `["bad.com",
"www.example.com"]` whose first authorisation is refused with a 403 aborts
with that error, requested a challenge only for `"bad.com"`, and never made
the `new-cert` request. -/
theorem C1_witness :
    (get_crt_from_csr testPrims () () ["example.com"] "/acme" "https://ca"
      (fun _ => c1Env) (.ok "N3") (fun _ => .ok 201 (Json.str "CERT"))).1 =
      some (.ok (Json.str "CERT")) ∧
    authzDomains (get_crt_from_csr testPrims () () ["example.com"] "/acme"
      "https://ca" (fun _ => c1Env) (.ok "N3")
      (fun _ => .ok 201 (Json.str "CERT"))).2 = ["example.com"] ∧
    Event.newCertRequest ∈ (get_crt_from_csr testPrims () () ["example.com"]
      "/acme" "https://ca" (fun _ => c1Env) (.ok "N3")
      (fun _ => .ok 201 (Json.str "CERT"))).2 ∧
    (get_crt_from_csr testPrims () () ["bad.com", "www.example.com"] "/acme"
      "https://ca" (fun _ => c1FailEnv) (.ok "N3")
      (fun _ => .ok 201 (Json.str "CERT"))).1 =
      some (.error (.errorRequestingChallenges (some 403) (.str "denied"))) ∧
    authzDomains (get_crt_from_csr testPrims () ()
      ["bad.com", "www.example.com"] "/acme" "https://ca"
      (fun _ => c1FailEnv) (.ok "N3")
      (fun _ => .ok 201 (Json.str "CERT"))).2 = ["bad.com"] ∧
    Event.newCertRequest ∉ (get_crt_from_csr testPrims () ()
      ["bad.com", "www.example.com"] "/acme" "https://ca"
      (fun _ => c1FailEnv) (.ok "N3")
      (fun _ => .ok 201 (Json.str "CERT"))).2 := by
  have hB := (C1_sequential_issuance testPrims () () "/acme" "https://ca"
    (fun _ => c1Env) (.ok "N3") (fun _ => .ok 201 (Json.str "CERT"))).2
    ["example.com"] (Json.str "CERT") rfl
  have hA := (C1_sequential_issuance testPrims () () "/acme" "https://ca"
    (fun _ => c1FailEnv) (.ok "N3") (fun _ => .ok 201 (Json.str "CERT"))).1
    [] "bad.com" ["www.example.com"]
    (.errorRequestingChallenges (some 403) (.str "denied"))
    (fun j h => absurd h (by simp)) rfl
  exact ⟨rfl, hB.2.1, hB.2.2, hA.1, hA.2.1, hA.2.2⟩

/-- C2 witness: one pending answer then a valid one (poll, 2-second sleep,
poll, proof-file removal); a two-pending window leaves the loop running; a
first `valid` answer ends the loop ignoring later answers; an `invalid`
answer fails carrying the payload, without file removal. -/
theorem C2_witness :
    pollLoop "example.com" "https://ca/chal" "/acme/tok"
      ([.ok (Json.obj [("status", Json.str "pending")])] ++
        [.ok (Json.obj [("status", Json.str "valid")])]) =
      ((pollLoop "example.com" "https://ca/chal" "/acme/tok"
          [.ok (Json.obj [("status", Json.str "valid")])]).1,
       ([PollResp.ok (Json.obj [("status", Json.str "pending")])].map
          fun _ => [Event.pollRequest "https://ca/chal",
            Event.sleep 2]).flatten ++
         (pollLoop "example.com" "https://ca/chal" "/acme/tok"
            [.ok (Json.obj [("status", Json.str "valid")])]).2) ∧
    (pollLoop "example.com" "https://ca/chal" "/acme/tok"
      [.ok (Json.obj [("status", Json.str "pending")]),
       .ok (Json.obj [("status", Json.str "pending")])]).1 = none ∧
    pollLoop "example.com" "https://ca/chal" "/acme/tok"
      [.ok (Json.obj [("status", Json.str "valid")]),
       .ok (Json.obj [("status", Json.str "pending")])] =
      (some (.ok ()),
       [.pollRequest "https://ca/chal", .removeFile "/acme/tok"]) ∧
    pollLoop "example.com" "https://ca/chal" "/acme/tok"
      [.ok (Json.obj [("status", Json.str "invalid")])] =
      (some (.error (.challengeDidNotPass "example.com"
        (Json.obj [("status", Json.str "invalid")]))),
       [.pollRequest "https://ca/chal"]) := by
  have hC := C2_poll_loop "example.com" "https://ca/chal" "/acme/tok"
  refine ⟨hC.1 _ _ ?_, hC.2.1 _ ?_,
    hC.2.2.1 _ _ (.str "valid") rfl rfl,
    hC.2.2.2 _ _ (.str "invalid") rfl rfl rfl⟩
  · intro q hq
    simp only [List.mem_singleton] at hq
    subst hq
    rfl
  · intro q hq
    simp only [List.mem_cons] at hq
    rcases hq with h | h | h
    · subst h; rfl
    · subst h; rfl
    · simp at h

end Acertmgr
